import Mathlib

/-!
Shallow embedding of the `ai_mock_interviews` client code:
the `Layout` server component and the `Agent` client component from
`app/(root)/layout.tsx`.  The `Agent` component keeps four pieces of React
state (`callStatus`, `messages`, `isSpeaking`, `lastMessage`); its event
handlers and the two user-initiated operations (`handleCall`,
`handleDisconnect`) are modelled as pure functions on that state, with the
external effects (calling `vapi.start`, navigating, calling
`createFeedback`) reified as returned values.
-/

namespace AgentModel

/-- The four-state enumeration `CallStatus` of the component. -/
inductive CallStatus
  | INACTIVE
  | CONNECTING
  | ACTIVE
  | FINISHED
deriving DecidableEq, Repr

/-- The role of a saved message, `"user" | "system" | "assistant"`. -/
inductive Role
  | user
  | system
  | assistant
deriving DecidableEq, Repr

/-- `SavedMessage` from the source: a role and a content string. -/
structure SavedMessage where
  role : Role
  content : String
deriving DecidableEq, Repr

/-- `VapiMessage` from the source: all fields optional (`?` in TS). -/
structure VapiMessage where
  type : Option String
  transcriptType : Option String
  transcript : Option String
  role : Option Role
deriving DecidableEq, Repr

/-- The React state of the `Agent` component. -/
structure AgentState where
  callStatus : CallStatus
  messages : List SavedMessage
  isSpeaking : Bool
  lastMessage : String
deriving DecidableEq, Repr

/-- Model of JavaScript `String.prototype.trim` (the `.trim()` calls in
`onMessage`): removes whitespace from both ends of the string. -/
def jsTrim (s : String) : String :=
  ⟨((s.data.dropWhile Char.isWhitespace).reverse.dropWhile
      Char.isWhitespace).reverse⟩

/-- The initial state: `useState(CallStatus.INACTIVE)`, `useState([])`,
`useState(false)`, `useState("")`. -/
def initialState : AgentState :=
  { callStatus := CallStatus.INACTIVE
    messages := []
    isSpeaking := false
    lastMessage := "" }

/-- Handler for `call-start`: `setCallStatus(CallStatus.ACTIVE)`. -/
def onCallStart (s : AgentState) : AgentState :=
  { s with callStatus := CallStatus.ACTIVE }

/-- Handler for `call-end`: `setCallStatus(CallStatus.FINISHED)`. -/
def onCallEnd (s : AgentState) : AgentState :=
  { s with callStatus := CallStatus.FINISHED }

/-- Handler for `message`.  The source appends a final transcript unless the
trimmed transcript compares truthily-equal to the trimmed content of the
last buffered message:
`const last = prev[prev.length - 1]?.content?.trim();`
`if (last && last === trimmed) return prev;`
(`last && …` is the JS truthiness test: it fails when `prev` is empty or
when the trimmed last content is the empty string). -/
def onMessage (msg : VapiMessage) (s : AgentState) : AgentState :=
  match msg.transcript with
  | some tr =>
      if msg.type = some "transcript" ∧ msg.transcriptType = some "final" then
        let trimmed := jsTrim tr
        let appended := s.messages ++
          [{ role := msg.role.getD Role.assistant, content := trimmed }]
        match s.messages.getLast? with
        | some lastMsg =>
            if jsTrim lastMsg.content ≠ "" ∧ jsTrim lastMsg.content = trimmed then s
            else { s with messages := appended }
        | none => { s with messages := appended }
      else s
  | none => s

/-- Handler for `speech-start`: `setIsSpeaking(true)` (the `console.log` has
no state effect). -/
def onSpeechStart (s : AgentState) : AgentState :=
  { s with isSpeaking := true }

/-- Handler for `speech-end`: `setIsSpeaking(false)`. -/
def onSpeechEnd (s : AgentState) : AgentState :=
  { s with isSpeaking := false }

/-- Handler for `error`: the `console.error` calls and the attempts to read a
`Response` body have no state effect; the only state update is
`setCallStatus(CallStatus.INACTIVE)`. -/
def onError (s : AgentState) : AgentState :=
  { s with callStatus := CallStatus.INACTIVE }

/-- The event names passed to `vapi.on`, in source order (lines 136–141). -/
def registeredEvents : List String :=
  ["call-start", "call-end", "message", "speech-start", "speech-end", "error"]

/-- The event names passed to `vapi.off` in the effect's cleanup, in source
order (lines 144–149). -/
def unregisteredEvents : List String :=
  ["call-start", "call-end", "message", "speech-start", "speech-end", "error"]

/-- A recorded invocation of `vapi.start`: the workflow/assistant id and the
`variableValues` passed with it. -/
structure StartInvocation where
  flowId : String
  variableValues : List (String × String)
deriving DecidableEq, Repr

/-- `handleCall`.  Inputs that the closure reads from props/environment are
parameters (`ty` is the `type` prop, `workflowId` is
`NEXT_PUBLIC_VAPI_WORKFLOW_ID ?? ""`, `interviewer` is the constant imported
from `@/constants`, `questions` is the optional `questions` prop);
`startThrows` models whether `vapi.start` rejects.  Returns the resulting
state and the `vapi.start` invocation, if any was made. -/
def handleCall (ty : Option String) (workflowId interviewer : String)
    (userName userId : Option String) (questions : Option (List String))
    (startThrows : Bool) (s : AgentState) : AgentState × Option StartInvocation :=
  let s1 := { s with callStatus := CallStatus.CONNECTING }
  let flowId := if ty = some "generate" then workflowId else interviewer
  if flowId = "" then
    ({ s1 with callStatus := CallStatus.INACTIVE }, none)
  else
    let inv : StartInvocation :=
      if ty = some "generate" then
        { flowId := flowId
          variableValues :=
            [("username", userName.getD ""), ("userid", userId.getD "")] }
      else
        { flowId := flowId
          variableValues :=
            [("questions",
              String.intercalate "\n"
                ((questions.getD []).map (fun q => "- " ++ q)))] }
    if startThrows then ({ s1 with callStatus := CallStatus.INACTIVE }, some inv)
    else (s1, some inv)

/-- `handleDisconnect`: sets FINISHED, then calls `vapi.stop()`; if that
throws, the catch sets INACTIVE. -/
def handleDisconnect (stopThrows : Bool) (s : AgentState) : AgentState :=
  let s1 := { s with callStatus := CallStatus.FINISHED }
  if stopThrows then { s1 with callStatus := CallStatus.INACTIVE } else s1

/-- The external action chosen by the FINISHED-dispatch effect. -/
inductive FinishedAction
  | navigate (path : String)
  | feedback (transcript : List SavedMessage)
deriving DecidableEq, Repr

/-- The dispatch in the second `useEffect` (lines 175–181): when
`callStatus === CallStatus.FINISHED`, navigate home if `type === "generate"`
and otherwise call `handleGenerateFeedback(messages)`. -/
def finishedEffect (callStatus : CallStatus) (ty : Option String)
    (messages : List SavedMessage) : Option FinishedAction :=
  if callStatus = CallStatus.FINISHED then
    some (if ty = some "generate" then FinishedAction.navigate "/"
          else FinishedAction.feedback messages)
  else none

/-- The argument object passed to `createFeedback`. -/
structure FeedbackRequest where
  interviewId : Option String
  userId : Option String
  transcript : List SavedMessage
  feedbackId : Option String
deriving DecidableEq, Repr

/-- `handleGenerateFeedback`: builds the `createFeedback` request from the
buffered messages; `result` is the awaited `{success, feedbackId}` (or
`none` when `createFeedback` threw); returns the request together with the
route pushed afterwards. -/
def handleGenerateFeedback (interviewId userId feedbackId : Option String)
    (messages : List SavedMessage)
    (result : Option (Bool × Option String)) : FeedbackRequest × String :=
  let req : FeedbackRequest :=
    { interviewId := interviewId
      userId := userId
      transcript := messages
      feedbackId := feedbackId }
  match result with
  | some (true, some _) =>
      (req, "/interview/" ++ interviewId.getD "" ++ "/feedback")
  | some _ => (req, "/")
  | none => (req, "/")

/-- A label for one operation of the component: either one of the six SDK
event handlers, or one of the two user-initiated operations. -/
inductive Label
  | sdkCallStart
  | sdkCallEnd
  | sdkMessage (m : VapiMessage)
  | sdkSpeechStart
  | sdkSpeechEnd
  | sdkError
  | uiCall (ty : Option String) (workflowId interviewer : String)
      (userName userId : Option String) (questions : Option (List String))
      (startThrows : Bool)
  | uiDisconnect (stopThrows : Bool)

/-- Whether a label is an event emitted by the SDK. -/
def Label.isSdkEvent : Label → Bool
  | sdkCallStart => true
  | sdkCallEnd => true
  | sdkMessage _ => true
  | sdkSpeechStart => true
  | sdkSpeechEnd => true
  | sdkError => true
  | uiCall _ _ _ _ _ _ _ => false
  | uiDisconnect _ => false

/-- The state transformation performed by each operation. -/
def applyLabel : Label → AgentState → AgentState
  | Label.sdkCallStart, s => onCallStart s
  | Label.sdkCallEnd, s => onCallEnd s
  | Label.sdkMessage m, s => onMessage m s
  | Label.sdkSpeechStart, s => onSpeechStart s
  | Label.sdkSpeechEnd, s => onSpeechEnd s
  | Label.sdkError, s => onError s
  | Label.uiCall ty w i un ui qs th, s => (handleCall ty w i un ui qs th s).1
  | Label.uiDisconnect th, s => handleDisconnect th s

/-- States reachable from the initial state by the component's operations. -/
inductive Reachable : AgentState → Prop
  | init : Reachable initialState
  | step (s : AgentState) (l : Label) : Reachable s → Reachable (applyLabel l s)

/-- `true` when no two adjacent messages have equal non-empty trimmed
content. -/
def chainNoDup : List SavedMessage → Bool
  | a :: b :: rest =>
      ((jsTrim a.content == "") || (jsTrim a.content != jsTrim b.content)) &&
        chainNoDup (b :: rest)
  | _ => true

end AgentModel

namespace LayoutModel

/-- The user record rendered by the navbar. -/
structure User where
  id : String
  name : String
  email : String
deriving DecidableEq, Repr

/-- The observable outcome of one request to the root `Layout`. -/
structure LayoutOutcome where
  redirect : Option String
  fetchedCurrentUser : Bool
  renderedNavbarUser : Option (Option User)
  renderedChildren : Bool
deriving DecidableEq, Repr

/-- The root `Layout` server component: redirect to `/sign-in` when not
authenticated; otherwise fetch the current user and render the navbar (with
that user) and the children. -/
def Layout (isAuthenticated : Bool) (currentUser : Option User) : LayoutOutcome :=
  if !isAuthenticated then
    { redirect := some "/sign-in"
      fetchedCurrentUser := false
      renderedNavbarUser := none
      renderedChildren := false }
  else
    { redirect := none
      fetchedCurrentUser := true
      renderedNavbarUser := some currentUser
      renderedChildren := true }

end LayoutModel

namespace AgentModel

/-! ### Helper lemmas -/

theorem dropWhile_of_trimmed (l : List Char) :
    List.dropWhile Char.isWhitespace
        (List.rdropWhile Char.isWhitespace (List.dropWhile Char.isWhitespace l))
      = List.rdropWhile Char.isWhitespace (List.dropWhile Char.isWhitespace l) := by
  rw [List.dropWhile_eq_self_iff]
  intro hl
  have hpre :=
    List.rdropWhile_prefix Char.isWhitespace (List.dropWhile Char.isWhitespace l)
  have hm : 0 < (List.dropWhile Char.isWhitespace l).length := by
    have := hpre.length_le
    omega
  have h2 := List.dropWhile_get_zero_not Char.isWhitespace l hm
  simp only [List.get_eq_getElem] at h2 ⊢
  rw [List.IsPrefix.getElem hpre hl]
  exact h2

theorem jsTrim_eq_rdropWhile (t : String) :
    jsTrim t =
      ⟨List.rdropWhile Char.isWhitespace
        (List.dropWhile Char.isWhitespace t.data)⟩ := rfl

theorem jsTrim_idempotent (s : String) : jsTrim (jsTrim s) = jsTrim s := by
  rw [jsTrim_eq_rdropWhile s, jsTrim_eq_rdropWhile]
  congr 1
  show List.rdropWhile _ (List.dropWhile _
      (List.rdropWhile _ (List.dropWhile _ s.data))) = _
  rw [dropWhile_of_trimmed]
  exact List.rdropWhile_idempotent _ _

theorem chainNoDup_cons_cons (a b : SavedMessage) (r : List SavedMessage) :
    chainNoDup (a :: b :: r)
      = (((jsTrim a.content == "") || (jsTrim a.content != jsTrim b.content)) &&
          chainNoDup (b :: r)) := rfl

theorem chainNoDup_append (l : List SavedMessage) (x : SavedMessage)
    (h : chainNoDup l = true)
    (hlast : ∀ m, l.getLast? = some m →
      ((jsTrim m.content == "") || (jsTrim m.content != jsTrim x.content)) = true) :
    chainNoDup (l ++ [x]) = true := by
  induction l with
  | nil => rfl
  | cons a t ih =>
      cases t with
      | nil =>
          have ha := hlast a rfl
          show chainNoDup (a :: [x]) = true
          rw [chainNoDup_cons_cons, ha]
          rfl
      | cons b r =>
          rw [List.cons_append, List.cons_append, chainNoDup_cons_cons,
            ← List.cons_append, Bool.and_eq_true]
          rw [chainNoDup_cons_cons, Bool.and_eq_true] at h
          refine ⟨h.1, ih h.2 ?_⟩
          intro m hm
          exact hlast m (by rw [List.getLast?_cons_cons]; exact hm)

end AgentModel

open AgentModel LayoutModel

/-- C1 counterexample: when the last buffered message has empty trimmed
content and the incoming final transcript also trims to the empty string,
the trimmed transcript equals the trimmed content of the last buffered
message, yet the handler appends rather than returning the buffer
unchanged, producing two adjacent messages with equal trimmed content. -/
theorem onMessage_empty_dedup_cex :
    jsTrim " " = jsTrim ""
    ∧ (onMessage
        { type := some "transcript", transcriptType := some "final",
          transcript := some " ", role := none }
        { callStatus := CallStatus.INACTIVE,
          messages := [{ role := Role.assistant, content := "" }],
          isSpeaking := false, lastMessage := "" }).messages
        = [{ role := Role.assistant, content := "" },
           { role := Role.assistant, content := "" }] := by decide

/-- C1 (amended): for a final transcript event, if the last buffered
message's trimmed content is non-empty and equals the trimmed transcript
the buffer is unchanged; if the last trimmed content is empty or differs,
the new message is appended; hence the buffer never acquires two adjacent
messages with equal non-empty trimmed content. -/
theorem onMessage_dedup_nonempty (msg : VapiMessage) (s : AgentState) (t : String)
    (h1 : msg.type = some "transcript") (h2 : msg.transcriptType = some "final")
    (h3 : msg.transcript = some t) :
    ((∃ m, s.messages.getLast? = some m
        ∧ jsTrim m.content ≠ "" ∧ jsTrim m.content = jsTrim t) →
        (onMessage msg s).messages = s.messages)
    ∧ ((∀ m, s.messages.getLast? = some m →
          jsTrim m.content = "" ∨ jsTrim m.content ≠ jsTrim t) →
        (onMessage msg s).messages =
          s.messages ++ [{ role := msg.role.getD Role.assistant, content := jsTrim t }])
    ∧ (chainNoDup s.messages = true → chainNoDup (onMessage msg s).messages = true) := by
  unfold onMessage
  rw [h3]
  dsimp only
  rw [if_pos ⟨h1, h2⟩]
  refine ⟨?_, ?_, ?_⟩
  · rintro ⟨m, hm, hne, heq⟩
    rw [hm]
    dsimp only
    rw [if_pos ⟨hne, heq⟩]
  · intro hall
    cases hl : s.messages.getLast? with
    | none => rfl
    | some m =>
        dsimp only
        rw [if_neg]
        rintro ⟨hne, heq⟩
        rcases hall m hl with h | h
        · exact hne h
        · exact h heq
  · intro hc
    cases hl : s.messages.getLast? with
    | none =>
        have hnil : s.messages = [] := List.getLast?_eq_none_iff.mp hl
        dsimp only
        rw [hnil]
        rfl
    | some m =>
        dsimp only
        by_cases hcond : jsTrim m.content ≠ "" ∧ jsTrim m.content = jsTrim t
        · rw [if_pos hcond]; exact hc
        · rw [if_neg hcond]
          dsimp only
          refine chainNoDup_append s.messages _ hc ?_
          intro m' hm'
          rw [hl] at hm'
          injection hm' with hm'
          subst hm'
          rw [jsTrim_idempotent]
          rcases Decidable.not_and_iff_or_not.mp hcond with h | h
          · simp only [Bool.or_eq_true, beq_iff_eq]
            exact Or.inl (Decidable.not_not.mp h)
          · simp only [Bool.or_eq_true, bne_iff_ne]
            exact Or.inr h

/-- C1 witness: on the empty buffer, a final transcript " hi " is appended
with trimmed content. -/
theorem onMessage_dedup_nonempty_witness :
    (onMessage
        { type := some "transcript", transcriptType := some "final",
          transcript := some " hi ", role := none } initialState).messages
      = [{ role := Role.assistant, content := "hi" }] := by
  have h := onMessage_dedup_nonempty
    { type := some "transcript", transcriptType := some "final",
      transcript := some " hi ", role := none } initialState " hi " rfl rfl rfl
  have h2 := h.2.1 (fun m hm => Option.noConfusion hm)
  rw [h2]
  decide

/-- C2 counterexample: `handleDisconnect` is a user-initiated operation, not
an SDK event, yet it changes the call status from INACTIVE to FINISHED. -/
theorem callStatus_not_sdk_only_cex :
    (Label.uiDisconnect false).isSdkEvent = false
    ∧ (applyLabel (Label.uiDisconnect false) initialState).callStatus = CallStatus.FINISHED
    ∧ initialState.callStatus = CallStatus.INACTIVE := by decide

/-- C2 (amended): the call status is changed only by the call-start,
call-end and error SDK handlers (to ACTIVE, FINISHED, INACTIVE
respectively) and by the user-initiated handleCall (to CONNECTING, or
INACTIVE on validation failure or a thrown start) and handleDisconnect (to
FINISHED, or INACTIVE when stop throws); the message, speech-start and
speech-end handlers never change it. -/
theorem callStatus_change_characterization (m : VapiMessage) (s : AgentState)
    (ty : Option String) (w i : String) (un ui : Option String)
    (qs : Option (List String)) (th st : Bool) :
    (onMessage m s).callStatus = s.callStatus
    ∧ (onSpeechStart s).callStatus = s.callStatus
    ∧ (onSpeechEnd s).callStatus = s.callStatus
    ∧ (onCallStart s).callStatus = CallStatus.ACTIVE
    ∧ (onCallEnd s).callStatus = CallStatus.FINISHED
    ∧ (onError s).callStatus = CallStatus.INACTIVE
    ∧ ((handleCall ty w i un ui qs th s).1.callStatus = CallStatus.CONNECTING
        ∨ (handleCall ty w i un ui qs th s).1.callStatus = CallStatus.INACTIVE)
    ∧ ((handleDisconnect st s).callStatus = CallStatus.FINISHED
        ∨ (handleDisconnect st s).callStatus = CallStatus.INACTIVE) := by
  refine ⟨?_, rfl, rfl, rfl, rfl, rfl, ?_, ?_⟩
  · unfold onMessage
    repeat' first | rfl | split | dsimp only
  · unfold handleCall
    dsimp only
    repeat' split
    all_goals first
      | exact Or.inl rfl
      | exact Or.inr rfl
  · unfold handleDisconnect
    cases st
    · exact Or.inl rfl
    · exact Or.inr rfl

/-- C3 counterexample: a session that reaches FINISHED with
type = "generate" navigates home and does not invoke the
feedback-generation action. -/
theorem finished_generate_no_feedback_cex :
    finishedEffect CallStatus.FINISHED (some "generate")
        [{ role := Role.user, content := "hello" }]
      = some (FinishedAction.navigate "/")
    ∧ decide (finishedEffect CallStatus.FINISHED (some "generate")
          [{ role := Role.user, content := "hello" }]
        = some (FinishedAction.feedback
            [{ role := Role.user, content := "hello" }])) = false := by decide

/-- C3 (amended): for every session reaching FINISHED whose type is not
"generate", the feedback-generation action is invoked with the buffered
transcript (and `handleGenerateFeedback` passes exactly the buffered
messages in the `createFeedback` request); when type is "generate" the
component navigates home instead. -/
theorem finished_nongenerate_invokes_feedback (ty : Option String)
    (msgs : List SavedMessage) (iid uid fid : Option String)
    (r : Option (Bool × Option String)) (h : ty ≠ some "generate") :
    finishedEffect CallStatus.FINISHED ty msgs = some (FinishedAction.feedback msgs)
    ∧ (handleGenerateFeedback iid uid fid msgs r).1.transcript = msgs := by
  constructor
  · simp [finishedEffect, h]
  · unfold handleGenerateFeedback
    rcases r with _ | ⟨_ | _, _ | _⟩ <;> rfl

/-- C3 witness: at type = none the dispatch is the feedback action. -/
theorem finished_nongenerate_invokes_feedback_witness :
    finishedEffect CallStatus.FINISHED none [{ role := Role.user, content := "a" }]
      = some (FinishedAction.feedback [{ role := Role.user, content := "a" }])
    ∧ (handleGenerateFeedback none none none
        [{ role := Role.user, content := "a" }] none).1.transcript
      = [{ role := Role.user, content := "a" }] :=
  finished_nongenerate_invokes_feedback none
    [{ role := Role.user, content := "a" }] none none none none (by decide)

/-- C4: when the call reaches FINISHED, exactly one of the two async
actions is chosen: navigation home when type = "generate", the
feedback-generation action with the buffered messages for every other type
value. -/
theorem finished_dispatch_exclusive (ty : Option String)
    (msgs : List SavedMessage) :
    (ty = some "generate"
      ∧ finishedEffect CallStatus.FINISHED ty msgs = some (FinishedAction.navigate "/")
      ∧ finishedEffect CallStatus.FINISHED ty msgs ≠ some (FinishedAction.feedback msgs))
    ∨ (ty ≠ some "generate"
      ∧ finishedEffect CallStatus.FINISHED ty msgs = some (FinishedAction.feedback msgs)
      ∧ finishedEffect CallStatus.FINISHED ty msgs ≠ some (FinishedAction.navigate "/")) := by
  by_cases hty : ty = some "generate"
  · refine Or.inl ⟨hty, by simp [finishedEffect, hty], ?_⟩
    simp [finishedEffect, hty]
  · refine Or.inr ⟨hty, by simp [finishedEffect, hty], ?_⟩
    simp [finishedEffect, hty]

/-- C4 witness: at type = some "generate" the navigation branch is chosen. -/
theorem finished_dispatch_exclusive_witness :
    ((some "generate" : Option String) = some "generate"
      ∧ finishedEffect CallStatus.FINISHED (some "generate") ([] : List SavedMessage)
          = some (FinishedAction.navigate "/")
      ∧ finishedEffect CallStatus.FINISHED (some "generate") ([] : List SavedMessage)
          ≠ some (FinishedAction.feedback []))
    ∨ ((some "generate" : Option String) ≠ some "generate"
      ∧ finishedEffect CallStatus.FINISHED (some "generate") ([] : List SavedMessage)
          = some (FinishedAction.feedback [])
      ∧ finishedEffect CallStatus.FINISHED (some "generate") ([] : List SavedMessage)
          ≠ some (FinishedAction.navigate "/")) :=
  finished_dispatch_exclusive (some "generate") []

/-- C5 counterexample: the component registers handlers for six, not five,
distinct SDK event names. -/
theorem registeredEvents_count_cex :
    registeredEvents.eraseDups.length = 6
    ∧ decide (registeredEvents.eraseDups.length = 5) = false := by decide

/-- C5 (amended): the set of SDK event names the component registers
handlers for has exactly six elements, and the teardown unregisters exactly
the same event names. -/
theorem registeredEvents_six_symmetric :
    registeredEvents.eraseDups.length = 6
    ∧ unregisteredEvents = registeredEvents := by decide

/-- C6: the error handler's only state effect is to set the call status to
INACTIVE; the message buffer, the speaking flag and the last-message field
are unchanged. -/
theorem onError_only_status_effect (s : AgentState) :
    (onError s).callStatus = CallStatus.INACTIVE
    ∧ (onError s).messages = s.messages
    ∧ (onError s).isSpeaking = s.isSpeaking
    ∧ (onError s).lastMessage = s.lastMessage :=
  ⟨rfl, rfl, rfl, rfl⟩

/-- C7: from the initial state, every state reachable through the
component's operations has a call status among the four enumeration
values. -/
theorem callStatus_always_in_enum (s : AgentState) (_h : Reachable s) :
    s.callStatus ∈ [CallStatus.INACTIVE, CallStatus.CONNECTING,
      CallStatus.ACTIVE, CallStatus.FINISHED] := by
  cases s.callStatus <;> simp

/-- C7 witness: the initial state is reachable and its status is in the
enumeration. -/
theorem callStatus_always_in_enum_witness :
    initialState.callStatus ∈ [CallStatus.INACTIVE, CallStatus.CONNECTING,
      CallStatus.ACTIVE, CallStatus.FINISHED] :=
  callStatus_always_in_enum initialState Reachable.init

/-- C8: a message event that is not a final transcript with a string
transcript leaves the whole state unchanged, and any appended message
carries the trimmed transcript as content with the role defaulting to
assistant. -/
theorem onMessage_frame_and_append (msg : VapiMessage) (s : AgentState) :
    (¬(msg.type = some "transcript" ∧ msg.transcriptType = some "final"
        ∧ msg.transcript.isSome) → onMessage msg s = s)
    ∧ ((onMessage msg s).messages = s.messages
        ∨ ∃ t, msg.transcript = some t
            ∧ (onMessage msg s).messages =
                s.messages ++
                  [{ role := msg.role.getD Role.assistant, content := jsTrim t }]) := by
  constructor
  · intro hn
    unfold onMessage
    cases htr : msg.transcript with
    | none => rfl
    | some tr =>
        dsimp only
        rw [if_neg]
        rintro ⟨ht1, ht2⟩
        exact hn ⟨ht1, ht2, by rw [htr]; rfl⟩
  · unfold onMessage
    split
    · rename_i tr htr
      repeat' first
        | exact Or.inl rfl
        | exact Or.inr ⟨tr, htr, rfl⟩
        | split
        | dsimp only
    · exact Or.inl rfl

/-- C8 witness: a speech-status message (no transcript) leaves the state
unchanged. -/
theorem onMessage_frame_and_append_witness :
    onMessage
        { type := some "speech-update", transcriptType := none,
          transcript := none, role := none } initialState = initialState :=
  (onMessage_frame_and_append
    { type := some "speech-update", transcriptType := none,
      transcript := none, role := none } initialState).1 (by decide)

/-- C9: when the selected workflow/assistant id is empty, handleCall never
invokes the SDK's start function and leaves the call status INACTIVE. -/
theorem handleCall_empty_flowId (ty : Option String) (w i : String)
    (un ui : Option String) (qs : Option (List String)) (th : Bool)
    (s : AgentState) (h : (if ty = some "generate" then w else i) = "") :
    (handleCall ty w i un ui qs th s).2 = none
    ∧ (handleCall ty w i un ui qs th s).1.callStatus = CallStatus.INACTIVE := by
  unfold handleCall
  simp [h]

/-- C9 witness: with type "generate" and an empty workflow id, start is not
invoked and the status ends INACTIVE. -/
theorem handleCall_empty_flowId_witness :
    (handleCall (some "generate") "" "interviewer-const" none none none
        false initialState).2 = none
    ∧ (handleCall (some "generate") "" "interviewer-const" none none none
        false initialState).1.callStatus = CallStatus.INACTIVE :=
  handleCall_empty_flowId (some "generate") "" "interviewer-const" none none
    none false initialState (by decide)

/-- C10: an unauthenticated request is redirected to /sign-in; the current
user is not fetched and neither the navbar nor the children render. -/
theorem layout_unauthenticated_redirects (u : Option User) :
    Layout false u =
      { redirect := some "/sign-in", fetchedCurrentUser := false,
        renderedNavbarUser := none, renderedChildren := false } := rfl
